import Mathlib

/-!
Shallow embedding of the `WebGPUBackground` starfield animator
(`astro.config.mjs` companion module, class `WebGPUBackground`).

Numbers are modelled as rationals.  The calls to `Math.cos θ` / `Math.sin θ`
for a uniformly drawn angle `θ ∈ [0, 2π)` are modelled by an abstract point
`(c, s)` on the unit circle (`c ^ 2 + s ^ 2 = 1`); every other random draw is
a rational in `[0, 1)`.
-/

namespace Starfield

/-- `private depth: number = 1500` in `WebGPUBackground`. -/
def depth : ℚ := 1500

/-- The `Star` record: `{ x, y, z, baseSpeed }`. -/
structure Star where
  x : ℚ
  y : ℚ
  z : ℚ
  baseSpeed : ℚ
deriving Repr, DecidableEq

/-- The random draws consumed when a star is (re)placed: `c`/`s` stand for
`Math.cos(theta)` / `Math.sin(theta)` of the uniformly drawn angle, `uR` is
the `Math.random()` call for the radius, `uZ` the one for the depth offset. -/
structure Draw where
  c : ℚ
  s : ℚ
  uR : ℚ
  uZ : ℚ
deriving Repr, DecidableEq

/-- Side conditions that the host's random source guarantees: `(c, s)` lies on
the unit circle and the uniform draws are in `[0, 1)`. -/
def Draw.Valid (d : Draw) : Prop :=
  d.c ^ 2 + d.s ^ 2 = 1 ∧ 0 ≤ d.uR ∧ d.uR < 1 ∧ 0 ≤ d.uZ ∧ d.uZ < 1

instance (d : Draw) : Decidable d.Valid := by
  unfold Draw.Valid; infer_instance

/-- `const radius = Math.random() * 800 + 100`. -/
def drawRadius (d : Draw) : ℚ := d.uR * 800 + 100

/-- One star of `createStarfield`:
`x = cos(theta)*radius`, `y = sin(theta)*radius`, `z = -(Math.random()*depth)`,
`baseSpeed = 0.5 + Math.random() * 1.5`. -/
def initStar (d : Draw) (uSpeed : ℚ) : Star :=
  { x := d.c * drawRadius d
    y := d.s * drawRadius d
    z := -(d.uZ * depth)
    baseSpeed := 0.5 + uSpeed * 1.5 }

/-- The pool filled by the `for` loop of `createStarfield`. -/
def initStars (count : ℕ) (posDraws : ℕ → Draw) (speedDraws : ℕ → ℚ) : List Star :=
  (List.range count).map fun i => initStar (posDraws i) (speedDraws i)

/-- `const speedMultiplier = this.speed * 60 * deltaTime`. -/
def speedMultiplier (speed deltaTime : ℚ) : ℚ := speed * 60 * deltaTime

/-- `const mouseSpeed = this.mouseInfluence ? 1 + Math.abs(this.targetMouse.x - 0.5) * 0.8 : 1`. -/
def mouseSpeedBoost (mouseInfluence : Bool) (targetMouseX : ℚ) : ℚ :=
  if mouseInfluence then 1 + |targetMouseX - 0.5| * 0.8 else 1

/-- `star.z += star.baseSpeed * speedMultiplier * mouseSpeed`. -/
def advanceStar (st : Star) (sm ms : ℚ) : Star :=
  { st with z := st.z + st.baseSpeed * sm * ms }

/-- The `if (star.z > 0)` body of `updateStars`: `z = -depth + Math.random()*100`
and `(x, y)` redrawn from the disk distribution; `baseSpeed` untouched. -/
def recycleStar (st : Star) (d : Draw) : Star :=
  { st with
    z := -depth + d.uZ * 100
    x := d.c * drawRadius d
    y := d.s * drawRadius d }

/-- Advance one star, recycling it when it has passed the camera. -/
def updateStar (st : Star) (sm ms : ℚ) (d : Draw) : Star :=
  if (advanceStar st sm ms).z > 0 then recycleStar (advanceStar st sm ms) d
  else advanceStar st sm ms

/-- The `(displayX, displayY, star.z)` triple written into the positions
buffer: the stored `(x, y)` offset by the pointer parallax when
`mouseInfluence` is on. -/
def displayPos (st : Star) (mouseInfluence : Bool) (mx my : ℚ) : ℚ × ℚ × ℚ :=
  if mouseInfluence then
    (st.x + (mx - 0.5) * 100 * ((depth + st.z) / depth),
      st.y + (my - 0.5) * 100 * ((depth + st.z) / depth), st.z)
  else
    (st.x, st.y, st.z)

/-- One iteration of the `for` loop of `updateStars`: the updated star record
and the triple written into the buffer for it. -/
def frameStar (st : Star) (sm ms : ℚ) (mouseInfluence : Bool) (mx my : ℚ) (d : Draw) :
    Star × ℚ × ℚ × ℚ :=
  (updateStar st sm ms d, displayPos (updateStar st sm ms d) mouseInfluence mx my)

/-- The `for` loop of `updateStars` over the pool, star `i` consuming the
`i`-th bundle of random draws. -/
def updateStarsGo (sm ms : ℚ) (mouseInfluence : Bool) (mx my : ℚ) (draws : ℕ → Draw) :
    ℕ → List Star → List (Star × ℚ × ℚ × ℚ)
  | _, [] => []
  | i, st :: rest =>
      frameStar st sm ms mouseInfluence mx my (draws i) ::
        updateStarsGo sm ms mouseInfluence mx my draws (i + 1) rest

/-- `this.mouse.lerp(this.targetMouse, 0.05)` per component:
`lerp a b t = a + (b - a) * t` (three.js `Vector2.lerp`). -/
def lerp (a b t : ℚ) : ℚ := a + (b - a) * t

/-- The animator state touched by the frame loop. -/
structure AnimState where
  stars : List Star
  positions : List (ℚ × ℚ × ℚ)
  speed : ℚ
  mouseX : ℚ
  mouseY : ℚ
  targetMouseX : ℚ
  targetMouseY : ℚ
  mouseInfluence : Bool

/-- The inputs one `animate` callback consumes: the clock delta and the
random draws available to recycling. -/
structure Frame where
  deltaTime : ℚ
  draws : ℕ → Draw

/-- Validity of a frame input: nonnegative elapsed time, in-range draws. -/
def Frame.Valid (f : Frame) : Prop :=
  0 ≤ f.deltaTime ∧ ∀ i, (f.draws i).Valid

/-- One `animate` callback: lerp the displayed mouse toward the target, then
run `updateStars` (which advances, recycles and fills the buffer). -/
def animateFrame (st : AnimState) (f : Frame) : AnimState :=
  let mx := lerp st.mouseX st.targetMouseX 0.05
  let my := lerp st.mouseY st.targetMouseY 0.05
  let sm := speedMultiplier st.speed f.deltaTime
  let ms := mouseSpeedBoost st.mouseInfluence st.targetMouseX
  let upd := updateStarsGo sm ms st.mouseInfluence mx my f.draws 0 st.stars
  { st with
    stars := upd.map Prod.fst
    positions := upd.map Prod.snd
    mouseX := mx
    mouseY := my }

/-- Run `animate` for a list of consecutive frames. -/
def runFrames (st : AnimState) (frames : List Frame) : AnimState :=
  frames.foldl animateFrame st

/-- `public setSpeed(speed: number) { this.speed = speed; }` -/
def setSpeed (st : AnimState) (v : ℚ) : AnimState := { st with speed := v }

/-- Animator state right after `createStarfield`: pool populated, buffer
holding the raw positions, pointer vectors zeroed. -/
def mkState (count : ℕ) (speed : ℚ) (mouseInfluence : Bool)
    (posDraws : ℕ → Draw) (speedDraws : ℕ → ℚ) : AnimState :=
  let stars := initStars count posDraws speedDraws
  { stars := stars
    positions := stars.map fun st => (st.x, st.y, st.z)
    speed := speed
    mouseX := 0
    mouseY := 0
    targetMouseX := 0
    targetMouseY := 0
    mouseInfluence := mouseInfluence }

/-- Pool-wide invariant carried through the proofs: the star's depth stays in
`[-depth, 0]` and its individual speed is nonnegative. -/
def Star.Good (st : Star) : Prop :=
  -depth ≤ st.z ∧ st.z ≤ 0 ∧ 0 ≤ st.baseSpeed

instance (st : Star) : Decidable st.Good := by
  unfold Star.Good; infer_instance

/-! ## Teardown (`destroy`) model

`destroy` interacts with the host: `cancelAnimationFrame`, three
`window.removeEventListener` calls, three `dispose` calls, and a guarded
`removeChild`.  Per DOM semantics, removing an absent listener and cancelling
a stale frame id are silent no-ops, while `removeChild` of a non-child throws;
the code guards the latter with `container.contains`.  Each primitive is
modelled on an explicit host state, and every call `destroy` issues is logged
as an action so that re-attempts are observable. -/

inductive ListenerKind
  | resize
  | mousemove
  | touchmove
deriving Repr, DecidableEq

inductive DomError
  | notFound
deriving Repr, DecidableEq

/-- The host-side resources the animator owns. -/
structure HostState where
  resizeListener : Bool
  mousemoveListener : Bool
  touchmoveListener : Bool
  scheduledFrame : Option ℕ
  childAttached : Bool
  geometryAlive : Bool
  materialAlive : Bool
  rendererAlive : Bool
deriving Repr, DecidableEq

/-- The calls `destroy` issues against the host. -/
inductive DestroyAction
  | cancelFrame (id : ℕ)
  | removeListener (k : ListenerKind)
  | disposeGeometry
  | disposeMaterial
  | disposeRenderer
  | detachChild
deriving Repr, DecidableEq

/-- The only animator field `destroy` reads: `this.animationId`
(note: `destroy` never resets it). -/
structure Animator where
  animationId : Option ℕ
deriving Repr, DecidableEq

/-- `cancelAnimationFrame(id)`: unschedules the pending callback if `id` is
the pending one; otherwise a silent no-op. -/
def cancelAnimationFrame (id : ℕ) (env : HostState) : HostState :=
  if env.scheduledFrame = some id then { env with scheduledFrame := none } else env

/-- `window.removeEventListener(...)`: clears the listener flag; a no-op
(never an error) when the listener is already gone. -/
def removeEventListener (k : ListenerKind) (env : HostState) : HostState :=
  match k with
  | ListenerKind.resize => { env with resizeListener := false }
  | ListenerKind.mousemove => { env with mousemoveListener := false }
  | ListenerKind.touchmove => { env with touchmoveListener := false }

/-- `container.removeChild(...)`: throws `NotFoundError` when the node is not
a child. -/
def removeChild (env : HostState) : Except DomError HostState :=
  if env.childAttached then Except.ok { env with childAttached := false }
  else Except.error DomError.notFound

/-- `public destroy()`: cancel the recorded frame request (when non-null),
remove the three listeners, dispose geometry, material and renderer, and
detach the canvas only when `container.contains` reports it attached. -/
def destroy (a : Animator) (env : HostState) :
    Except DomError (Animator × HostState × List DestroyAction) :=
  let step1 : HostState × List DestroyAction :=
    match a.animationId with
    | some id => (cancelAnimationFrame id env, [DestroyAction.cancelFrame id])
    | none => (env, [])
  let env1 := removeEventListener ListenerKind.touchmove
    (removeEventListener ListenerKind.mousemove
      (removeEventListener ListenerKind.resize step1.1))
  let env2 := { env1 with geometryAlive := false, materialAlive := false,
                          rendererAlive := false }
  let acts := step1.2 ++
    [DestroyAction.removeListener ListenerKind.resize,
     DestroyAction.removeListener ListenerKind.mousemove,
     DestroyAction.removeListener ListenerKind.touchmove,
     DestroyAction.disposeGeometry, DestroyAction.disposeMaterial,
     DestroyAction.disposeRenderer]
  if env2.childAttached then
    match removeChild env2 with
    | Except.ok env3 => Except.ok (a, env3, acts ++ [DestroyAction.detachChild])
    | Except.error e => Except.error e
  else
    Except.ok (a, env2, acts)

/-! ## Helper lemmas -/

lemma mouseSpeedBoost_nonneg (mi : Bool) (tx : ℚ) : 0 ≤ mouseSpeedBoost mi tx := by
  unfold mouseSpeedBoost
  split
  · have h := abs_nonneg (tx - 0.5)
    nlinarith
  · norm_num

lemma initStar_good (d : Draw) (u : ℚ) (hd : d.Valid) (hu : 0 ≤ u) :
    (initStar d u).Good := by
  obtain ⟨-, -, -, h0, h1⟩ := hd
  unfold initStar Star.Good depth
  refine ⟨by simp; nlinarith, by simp; nlinarith, by simp; nlinarith⟩

lemma updateStar_good (st : Star) (sm ms : ℚ) (d : Draw)
    (hst : st.Good) (hsm : 0 ≤ sm) (hms : 0 ≤ ms) (hd : d.Valid) :
    (updateStar st sm ms d).Good := by
  obtain ⟨hz1, hz2, hb⟩ := hst
  obtain ⟨-, -, -, h0, h1⟩ := hd
  unfold updateStar advanceStar recycleStar Star.Good depth at *
  split
  · refine ⟨by simp; nlinarith, by simp; nlinarith, by simpa using hb⟩
  · rename_i h
    push_neg at h
    refine ⟨by simp; nlinarith [mul_nonneg (mul_nonneg hb hsm) hms],
      by simpa using h, by simpa using hb⟩

lemma updateStarsGo_length (sm ms : ℚ) (mi : Bool) (mx my : ℚ) (draws : ℕ → Draw)
    (i : ℕ) (l : List Star) :
    (updateStarsGo sm ms mi mx my draws i l).length = l.length := by
  induction l generalizing i with
  | nil => rfl
  | cons hd tl ih => simp [updateStarsGo, ih]

lemma updateStarsGo_getElem? (sm ms : ℚ) (mi : Bool) (mx my : ℚ) (draws : ℕ → Draw)
    (i j : ℕ) (l : List Star) :
    (updateStarsGo sm ms mi mx my draws i l)[j]? =
      (l[j]?).map fun st => frameStar st sm ms mi mx my (draws (i + j)) := by
  induction l generalizing i j with
  | nil => simp [updateStarsGo]
  | cons hd tl ih =>
      cases j with
      | zero => simp [updateStarsGo]
      | succ j =>
          have h := ih (i + 1) j
          rw [show i + 1 + j = i + (j + 1) from by omega] at h
          simpa [updateStarsGo] using h

lemma updateStarsGo_good (sm ms : ℚ) (mi : Bool) (mx my : ℚ) (draws : ℕ → Draw)
    (i : ℕ) (l : List Star)
    (hl : ∀ st ∈ l, st.Good) (hsm : 0 ≤ sm) (hms : 0 ≤ ms)
    (hdr : ∀ j, (draws j).Valid) :
    ∀ p ∈ updateStarsGo sm ms mi mx my draws i l, p.1.Good := by
  induction l generalizing i with
  | nil => simp [updateStarsGo]
  | cons hd tl ih =>
      intro p hp
      simp only [updateStarsGo, List.mem_cons] at hp
      rcases hp with h | h
      · subst h
        exact updateStar_good _ _ _ _ (hl _ (by simp)) hsm hms (hdr i)
      · exact ih (i + 1) (fun st hst => hl st (by simp [hst])) p h

lemma animateFrame_stars_length (s : AnimState) (f : Frame) :
    (animateFrame s f).stars.length = s.stars.length := by
  simp [animateFrame, updateStarsGo_length]

lemma animateFrame_speed (s : AnimState) (f : Frame) :
    (animateFrame s f).speed = s.speed := rfl

lemma speedMultiplier_nonneg (speed dt : ℚ) (hs : 0 ≤ speed) (hdt : 0 ≤ dt) :
    0 ≤ speedMultiplier speed dt := by
  unfold speedMultiplier
  nlinarith

lemma animateFrame_good (s : AnimState) (f : Frame)
    (hs : ∀ st ∈ s.stars, st.Good) (hspeed : 0 ≤ s.speed) (hf : f.Valid) :
    ∀ st ∈ (animateFrame s f).stars, st.Good := by
  intro st hst
  simp only [animateFrame, List.mem_map] at hst
  obtain ⟨p, hp, rfl⟩ := hst
  exact updateStarsGo_good _ _ _ _ _ _ _ _ hs
    (speedMultiplier_nonneg _ _ hspeed hf.1) (mouseSpeedBoost_nonneg _ _) hf.2 p hp

lemma runFrames_good (s : AnimState) (frames : List Frame)
    (hs : ∀ st ∈ s.stars, st.Good) (hspeed : 0 ≤ s.speed)
    (hf : ∀ f ∈ frames, f.Valid) :
    ∀ st ∈ (runFrames s frames).stars, st.Good := by
  induction frames generalizing s with
  | nil => simpa [runFrames] using hs
  | cons f fs ih =>
      have h1 : runFrames s (f :: fs) = runFrames (animateFrame s f) fs := by
        simp [runFrames]
      rw [h1]
      exact ih (animateFrame s f)
        (animateFrame_good s f hs hspeed (hf f (by simp)))
        (by rw [animateFrame_speed]; exact hspeed)
        (fun g hg => hf g (by simp [hg]))

lemma runFrames_length (s : AnimState) (frames : List Frame) :
    (runFrames s frames).stars.length = s.stars.length := by
  induction frames generalizing s with
  | nil => rfl
  | cons f fs ih =>
      have h1 : runFrames s (f :: fs) = runFrames (animateFrame s f) fs := by
        simp [runFrames]
      rw [h1, ih, animateFrame_stars_length]

lemma initStars_length (count : ℕ) (pd : ℕ → Draw) (sd : ℕ → ℚ) :
    (initStars count pd sd).length = count := by
  simp [initStars]

lemma initStars_good (count : ℕ) (pd : ℕ → Draw) (sd : ℕ → ℚ)
    (hpd : ∀ i, (pd i).Valid) (hsd : ∀ i, 0 ≤ sd i) :
    ∀ st ∈ initStars count pd sd, st.Good := by
  intro st hst
  simp only [initStars, List.mem_map, List.mem_range] at hst
  obtain ⟨i, -, rfl⟩ := hst
  exact initStar_good _ _ (hpd i) (hsd i)

lemma updateStar_no_recycle (st : Star) (sm ms : ℚ) (d : Draw)
    (h : (advanceStar st sm ms).z ≤ 0) :
    updateStar st sm ms d = advanceStar st sm ms := by
  unfold updateStar
  rw [if_neg (not_lt.2 h)]

lemma animateFrame_stars_getElem? (s : AnimState) (f : Frame) (i : ℕ) :
    (animateFrame s f).stars[i]? =
      (s.stars[i]?).map fun st =>
        updateStar st (speedMultiplier s.speed f.deltaTime)
          (mouseSpeedBoost s.mouseInfluence s.targetMouseX) (f.draws i) := by
  simp only [animateFrame, List.getElem?_map, updateStarsGo_getElem?, Nat.zero_add]
  cases s.stars[i]? <;> simp [frameStar]

lemma animateFrame_positions_getElem? (s : AnimState) (f : Frame) (i : ℕ) :
    (animateFrame s f).positions[i]? =
      (s.stars[i]?).map fun st =>
        displayPos
          (updateStar st (speedMultiplier s.speed f.deltaTime)
            (mouseSpeedBoost s.mouseInfluence s.targetMouseX) (f.draws i))
          s.mouseInfluence
          (lerp s.mouseX s.targetMouseX 0.05) (lerp s.mouseY s.targetMouseY 0.05) := by
  simp only [animateFrame, List.getElem?_map, updateStarsGo_getElem?, Nat.zero_add]
  cases s.stars[i]? <;> simp [frameStar]

/-! ## Claim theorems -/

/-- C1: for every star in the pool, at initialization and after every
per-frame update (any number of frames with nonnegative `deltaTime`, with the
animator's nonnegative speed multiplier and in-range random draws), the star's
`z` coordinate lies in `[-depth, 0]` with `depth = 1500`; an advance that
pushes `z` above 0 is wrapped back near `-depth` within the same update. -/
theorem C1_star_z_range_invariant (count : ℕ) (pd : ℕ → Draw) (sd : ℕ → ℚ)
    (speed : ℚ) (mi : Bool) (frames : List Frame)
    (hpd : ∀ i, (pd i).Valid) (hsd : ∀ i, 0 ≤ sd i) (hspeed : 0 ≤ speed)
    (hf : ∀ f ∈ frames, f.Valid) (st : Star)
    (hmem : st ∈ (runFrames (mkState count speed mi pd sd) frames).stars) :
    -depth ≤ st.z ∧ st.z ≤ 0 := by
  have hgood := runFrames_good (mkState count speed mi pd sd) frames
    (by exact initStars_good count pd sd hpd hsd) (by exact hspeed) hf st hmem
  exact ⟨hgood.1, hgood.2.1⟩

theorem C1_star_z_range_invariant_witness :
    Star.mk 500 0 (-1450) (1/2) ∈
      (runFrames (mkState 1 1 true (fun _ => ⟨1, 0, 0, 0⟩) (fun _ => 0))
        [⟨1, fun _ => ⟨1, 0, 1/2, 1/2⟩⟩]).stars ∧
    (-depth ≤ (Star.mk 500 0 (-1450) (1/2)).z ∧
      (Star.mk 500 0 (-1450) (1/2)).z ≤ 0) := by
  have habs : |(1 : ℚ) / 2| = 1 / 2 := by
    rw [abs_of_nonneg]
    norm_num
  have hmem : Star.mk 500 0 (-1450) (1/2) ∈
      (runFrames (mkState 1 1 true (fun _ => ⟨1, 0, 0, 0⟩) (fun _ => 0))
        [⟨1, fun _ => ⟨1, 0, 1/2, 1/2⟩⟩]).stars := by
    norm_num [runFrames, animateFrame, mkState, initStars, initStar, drawRadius, depth,
      updateStarsGo, frameStar, updateStar, advanceStar, recycleStar, displayPos,
      speedMultiplier, mouseSpeedBoost, lerp, habs]
  exact ⟨hmem,
    C1_star_z_range_invariant 1 (fun _ => ⟨1, 0, 0, 0⟩) (fun _ => 0) 1 true
      [⟨1, fun _ => ⟨1, 0, 1/2, 1/2⟩⟩]
      (by intro i; norm_num [Draw.Valid]) (fun _ => le_refl 0) (by norm_num)
      (by
        intro f hf
        rw [List.mem_singleton] at hf
        subst hf
        exact ⟨by norm_num, by intro i; norm_num [Draw.Valid]⟩)
      (Star.mk 500 0 (-1450) (1/2)) hmem⟩

/-- C2: the pool size is invariant across the animator's lifetime: after
construction with a given `starCount` the pool has exactly that length, and no
number of per-frame updates adds or removes an element; in particular for
`starCount = 1500` the length stays 1500 after any number of frames. -/
theorem C2_pool_size_invariant (count : ℕ) (pd : ℕ → Draw) (sd : ℕ → ℚ)
    (speed : ℚ) (mi : Bool) (frames : List Frame) :
    (runFrames (mkState count speed mi pd sd) frames).stars.length = count ∧
    (runFrames (mkState 1500 speed mi pd sd) frames).stars.length = 1500 := by
  constructor <;> rw [runFrames_length] <;>
    simp [mkState, initStars_length]

/-- C3: a star whose `z` is strictly positive when the update examines it is
recycled by that update: for every in-range value of the random draws the new
`z` lies in `[-1500, -1400)`, the new `(x, y)` lies at a radius in
`[100, 900)` from the origin, and `baseSpeed` is untouched. -/
theorem C3_recycle_on_camera_pass (st : Star) (sm ms : ℚ) (d : Draw)
    (hd : d.Valid) (hpass : 0 < (advanceStar st sm ms).z) :
    (-depth ≤ (updateStar st sm ms d).z ∧ (updateStar st sm ms d).z < -1400) ∧
    (∃ r, 100 ≤ r ∧ r < 900 ∧
      (updateStar st sm ms d).x ^ 2 + (updateStar st sm ms d).y ^ 2 = r ^ 2) ∧
    (updateStar st sm ms d).baseSpeed = st.baseSpeed := by
  obtain ⟨hcs, hr0, hr1, h0, h1⟩ := hd
  have hup : updateStar st sm ms d = recycleStar (advanceStar st sm ms) d := by
    unfold updateStar
    rw [if_pos hpass]
  rw [hup]
  unfold recycleStar advanceStar drawRadius depth
  refine ⟨⟨by simp; nlinarith, by simp; nlinarith⟩,
    ⟨d.uR * 800 + 100, by nlinarith, by nlinarith, ?_⟩, rfl⟩
  show (d.c * (d.uR * 800 + 100)) ^ 2 + (d.s * (d.uR * 800 + 100)) ^ 2 =
    (d.uR * 800 + 100) ^ 2
  have hx : (d.c * (d.uR * 800 + 100)) ^ 2 + (d.s * (d.uR * 800 + 100)) ^ 2 =
      (d.c ^ 2 + d.s ^ 2) * (d.uR * 800 + 100) ^ 2 := by ring
  rw [hx, hcs, one_mul]

theorem C3_recycle_on_camera_pass_witness :
    Draw.Valid ⟨3/5, 4/5, 1/2, 1/2⟩ ∧
    0 < (advanceStar ⟨0, 0, 10, 1⟩ 1 1).z ∧
    ((-depth ≤ (updateStar ⟨0, 0, 10, 1⟩ 1 1 ⟨3/5, 4/5, 1/2, 1/2⟩).z ∧
      (updateStar ⟨0, 0, 10, 1⟩ 1 1 ⟨3/5, 4/5, 1/2, 1/2⟩).z < -1400) ∧
     (∃ r, 100 ≤ r ∧ r < 900 ∧
       (updateStar ⟨0, 0, 10, 1⟩ 1 1 ⟨3/5, 4/5, 1/2, 1/2⟩).x ^ 2 +
         (updateStar ⟨0, 0, 10, 1⟩ 1 1 ⟨3/5, 4/5, 1/2, 1/2⟩).y ^ 2 = r ^ 2) ∧
     (updateStar ⟨0, 0, 10, 1⟩ 1 1 ⟨3/5, 4/5, 1/2, 1/2⟩).baseSpeed =
       (Star.mk 0 0 10 1).baseSpeed) :=
  ⟨by norm_num [Draw.Valid], by norm_num [advanceStar],
    C3_recycle_on_camera_pass ⟨0, 0, 10, 1⟩ 1 1 ⟨3/5, 4/5, 1/2, 1/2⟩
      (by norm_num [Draw.Valid]) (by norm_num [advanceStar])⟩

/-- C4: the per-frame `z` advance is linear in the speed multiplier: from
identical particle and pointer state and a fixed `deltaTime`, `setSpeed(2)`
followed by one frame yields, for every particle not recycled in that frame
under either speed, exactly double the `z` advance of `setSpeed(1)`. -/
theorem C4_setSpeed_linear_z_advance (s : AnimState) (f : Frame) (i : ℕ) (st : Star)
    (hst : s.stars[i]? = some st)
    (h1 : (advanceStar st (speedMultiplier 1 f.deltaTime)
        (mouseSpeedBoost s.mouseInfluence s.targetMouseX)).z ≤ 0)
    (h2 : (advanceStar st (speedMultiplier 2 f.deltaTime)
        (mouseSpeedBoost s.mouseInfluence s.targetMouseX)).z ≤ 0) :
    ∃ st1 st2,
      (animateFrame (setSpeed s 1) f).stars[i]? = some st1 ∧
      (animateFrame (setSpeed s 2) f).stars[i]? = some st2 ∧
      st2.z - st.z = 2 * (st1.z - st.z) := by
  refine ⟨advanceStar st (speedMultiplier 1 f.deltaTime)
      (mouseSpeedBoost s.mouseInfluence s.targetMouseX),
    advanceStar st (speedMultiplier 2 f.deltaTime)
      (mouseSpeedBoost s.mouseInfluence s.targetMouseX), ?_, ?_, ?_⟩
  · rw [animateFrame_stars_getElem?]
    show (s.stars[i]?).map _ = _
    rw [hst]
    simp only [Option.map_some']
    exact congrArg some (updateStar_no_recycle _ _ _ _ h1)
  · rw [animateFrame_stars_getElem?]
    show (s.stars[i]?).map _ = _
    rw [hst]
    simp only [Option.map_some']
    exact congrArg some (updateStar_no_recycle _ _ _ _ h2)
  · unfold advanceStar speedMultiplier
    simp only
    ring

theorem C4_setSpeed_linear_z_advance_witness :
    (AnimState.mk [⟨0, 0, -1000, 1⟩] [] 5 0 0 0 0 false).stars[0]? =
      some ⟨0, 0, -1000, 1⟩ ∧
    (∃ st1 st2,
      (animateFrame (setSpeed (AnimState.mk [⟨0, 0, -1000, 1⟩] [] 5 0 0 0 0 false) 1)
        ⟨1, fun _ => ⟨1, 0, 0, 0⟩⟩).stars[0]? = some st1 ∧
      (animateFrame (setSpeed (AnimState.mk [⟨0, 0, -1000, 1⟩] [] 5 0 0 0 0 false) 2)
        ⟨1, fun _ => ⟨1, 0, 0, 0⟩⟩).stars[0]? = some st2 ∧
      st2.z - (Star.mk 0 0 (-1000) 1).z = 2 * (st1.z - (Star.mk 0 0 (-1000) 1).z)) :=
  ⟨rfl,
    C4_setSpeed_linear_z_advance (AnimState.mk [⟨0, 0, -1000, 1⟩] [] 5 0 0 0 0 false)
      ⟨1, fun _ => ⟨1, 0, 0, 0⟩⟩ 0 ⟨0, 0, -1000, 1⟩ rfl
      (by norm_num [advanceStar, speedMultiplier, mouseSpeedBoost])
      (by norm_num [advanceStar, speedMultiplier, mouseSpeedBoost])⟩

/-- C5: one pointer-smoothing step is a contraction toward a constant target:
after a single lerp step with factor 0.05 the distance to the target strictly
decreases unless displayed already equals the target, in which case it stays
equal. -/
theorem C5_pointer_smoothing_contraction (m t : ℚ) :
    (m ≠ t → |lerp m t 0.05 - t| < |m - t|) ∧ (m = t → lerp m t 0.05 = t) := by
  constructor
  · intro h
    have h005 : (0.05 : ℚ) = 1 / 20 := by norm_num
    have hkey : lerp m t 0.05 - t = (m - t) * (19 / 20) := by
      unfold lerp
      rw [h005]
      ring
    rw [hkey, abs_mul, show |(19/20 : ℚ)| = 19/20 from by norm_num]
    have hpos : 0 < |m - t| := abs_pos.2 (sub_ne_zero.2 h)
    nlinarith
  · intro h
    subst h
    unfold lerp
    ring

theorem C5_pointer_smoothing_contraction_witness :
    (1 : ℚ) ≠ 0 ∧ |lerp 1 0 0.05 - 0| < |(1 : ℚ) - 0| :=
  ⟨by norm_num, (C5_pointer_smoothing_contraction 1 0).1 (by norm_num)⟩

/-- C7: with pointer influence enabled, the per-frame update writes into the
render buffer the displayed `(x, y)` offset by `(pointer - 0.5) * 100 *
depthFactor` with `depthFactor = (depth + z) / depth`, but never mutates the
star record's stored `x` and `y` for a star not recycled in that frame. -/
theorem C7_parallax_display_only (s : AnimState) (f : Frame) (i : ℕ) (st : Star)
    (hmi : s.mouseInfluence = true)
    (hst : s.stars[i]? = some st)
    (hno : (advanceStar st (speedMultiplier s.speed f.deltaTime)
        (mouseSpeedBoost s.mouseInfluence s.targetMouseX)).z ≤ 0) :
    ∃ st', (animateFrame s f).stars[i]? = some st' ∧
      st'.x = st.x ∧ st'.y = st.y ∧
      (animateFrame s f).positions[i]? =
        some (st'.x + (lerp s.mouseX s.targetMouseX 0.05 - 0.5) * 100 *
                ((depth + st'.z) / depth),
              st'.y + (lerp s.mouseY s.targetMouseY 0.05 - 0.5) * 100 *
                ((depth + st'.z) / depth),
              st'.z) := by
  refine ⟨advanceStar st (speedMultiplier s.speed f.deltaTime)
      (mouseSpeedBoost s.mouseInfluence s.targetMouseX), ?_, rfl, rfl, ?_⟩
  · rw [animateFrame_stars_getElem?]
    show (s.stars[i]?).map _ = _
    rw [hst]
    simp only [Option.map_some']
    exact congrArg some (updateStar_no_recycle _ _ _ _ hno)
  · rw [animateFrame_positions_getElem?]
    show (s.stars[i]?).map _ = _
    rw [hst]
    simp only [Option.map_some']
    rw [updateStar_no_recycle _ _ _ _ hno]
    unfold displayPos
    rw [hmi, if_pos rfl]

theorem C7_parallax_display_only_witness :
    (AnimState.mk [⟨7, 8, -1000, 1⟩] [] 1 0 0 1 1 true).stars[0]? =
      some ⟨7, 8, -1000, 1⟩ ∧
    (∃ st', (animateFrame (AnimState.mk [⟨7, 8, -1000, 1⟩] [] 1 0 0 1 1 true)
        ⟨1, fun _ => ⟨1, 0, 0, 0⟩⟩).stars[0]? = some st' ∧
      st'.x = (Star.mk 7 8 (-1000) 1).x ∧ st'.y = (Star.mk 7 8 (-1000) 1).y ∧
      (animateFrame (AnimState.mk [⟨7, 8, -1000, 1⟩] [] 1 0 0 1 1 true)
        ⟨1, fun _ => ⟨1, 0, 0, 0⟩⟩).positions[0]? =
        some (st'.x + (lerp 0 1 0.05 - 0.5) * 100 * ((depth + st'.z) / depth),
              st'.y + (lerp 0 1 0.05 - 0.5) * 100 * ((depth + st'.z) / depth),
              st'.z)) :=
  ⟨rfl,
    C7_parallax_display_only (AnimState.mk [⟨7, 8, -1000, 1⟩] [] 1 0 0 1 1 true)
      ⟨1, fun _ => ⟨1, 0, 0, 0⟩⟩ 0 ⟨7, 8, -1000, 1⟩ rfl rfl
      (by
        have habs : |(1 : ℚ) / 2| = 1 / 2 := by
          rw [abs_of_nonneg]
          norm_num
        norm_num [advanceStar, speedMultiplier, mouseSpeedBoost, habs])⟩

lemma destroy_eq (a : Animator) (env : HostState) :
    destroy a env =
      Except.ok (a,
        ⟨false, false, false,
          (match a.animationId with
           | some id => if env.scheduledFrame = some id then none else env.scheduledFrame
           | none => env.scheduledFrame),
          false, false, false, false⟩,
        (match a.animationId with
         | some id => [DestroyAction.cancelFrame id]
         | none => []) ++
        [DestroyAction.removeListener ListenerKind.resize,
         DestroyAction.removeListener ListenerKind.mousemove,
         DestroyAction.removeListener ListenerKind.touchmove,
         DestroyAction.disposeGeometry, DestroyAction.disposeMaterial,
         DestroyAction.disposeRenderer] ++
        (if env.childAttached then [DestroyAction.detachChild] else [])) := by
  obtain ⟨aid⟩ := a
  cases aid <;> cases hc : env.childAttached <;>
    simp [destroy, removeEventListener, removeChild, cancelAnimationFrame, hc] <;>
    split_ifs <;> simp_all

/-- C6 (amended): a second `destroy()` never raises and leaves the host state
unchanged, and after `destroy` no frame callback remains scheduled; the second
call does re-issue the (idempotent, no-op) listener removals and disposals —
only the canvas detach is guarded against repetition. -/
theorem C6_destroy_second_call_amended (a : Animator) (env : HostState)
    (h : env.scheduledFrame = a.animationId ∨ env.scheduledFrame = none) :
    ∃ env1 acts1 acts2,
      destroy a env = Except.ok (a, env1, acts1) ∧
      env1.scheduledFrame = none ∧
      destroy a env1 = Except.ok (a, env1, acts2) ∧
      DestroyAction.detachChild ∉ acts2 ∧
      DestroyAction.removeListener ListenerKind.resize ∈ acts2 := by
  have hsched : (match a.animationId with
      | some id => if env.scheduledFrame = some id then none else env.scheduledFrame
      | none => env.scheduledFrame) = (none : Option ℕ) := by
    rcases h with h | h
    · cases haid : a.animationId with
      | none => rw [haid] at h; simpa using h
      | some id => rw [haid] at h; simp [h]
    · cases haid : a.animationId <;> simp [h]
  refine ⟨⟨false, false, false, none, false, false, false, false⟩,
    (match a.animationId with
     | some id => [DestroyAction.cancelFrame id]
     | none => []) ++
    [DestroyAction.removeListener ListenerKind.resize,
     DestroyAction.removeListener ListenerKind.mousemove,
     DestroyAction.removeListener ListenerKind.touchmove,
     DestroyAction.disposeGeometry, DestroyAction.disposeMaterial,
     DestroyAction.disposeRenderer] ++
    (if env.childAttached then [DestroyAction.detachChild] else []),
    (match a.animationId with
     | some id => [DestroyAction.cancelFrame id]
     | none => []) ++
    [DestroyAction.removeListener ListenerKind.resize,
     DestroyAction.removeListener ListenerKind.mousemove,
     DestroyAction.removeListener ListenerKind.touchmove,
     DestroyAction.disposeGeometry, DestroyAction.disposeMaterial,
     DestroyAction.disposeRenderer],
    ?_, rfl, ?_, ?_, ?_⟩
  · rw [destroy_eq, hsched]
  · rw [destroy_eq]
    cases a.animationId <;> simp
  · cases a.animationId <;> simp
  · cases a.animationId <;> simp

theorem C6_destroy_second_call_amended_witness :
    (HostState.mk true true true (some 7) true true true true).scheduledFrame =
        (Animator.mk (some 7)).animationId ∧
    (∃ env1 acts1 acts2,
      destroy ⟨some 7⟩ ⟨true, true, true, some 7, true, true, true, true⟩ =
        Except.ok (⟨some 7⟩, env1, acts1) ∧
      env1.scheduledFrame = none ∧
      destroy ⟨some 7⟩ env1 = Except.ok (⟨some 7⟩, env1, acts2) ∧
      DestroyAction.detachChild ∉ acts2 ∧
      DestroyAction.removeListener ListenerKind.resize ∈ acts2) :=
  ⟨rfl, C6_destroy_second_call_amended ⟨some 7⟩
    ⟨true, true, true, some 7, true, true, true, true⟩ (Or.inl rfl)⟩

/-- C6 (counterexample to the claim as stated): after a first `destroy()` has
removed the resize listener, a second `destroy()` still attempts the removal:
its call trace contains `removeListener resize` even though the listener flag
is already cleared. -/
theorem C6_second_destroy_reattempts_counterexample :
    destroy ⟨some 7⟩ ⟨true, true, true, some 7, true, true, true, true⟩ =
      Except.ok (⟨some 7⟩, ⟨false, false, false, none, false, false, false, false⟩,
        [DestroyAction.cancelFrame 7,
         DestroyAction.removeListener ListenerKind.resize,
         DestroyAction.removeListener ListenerKind.mousemove,
         DestroyAction.removeListener ListenerKind.touchmove,
         DestroyAction.disposeGeometry, DestroyAction.disposeMaterial,
         DestroyAction.disposeRenderer, DestroyAction.detachChild]) ∧
    (HostState.mk false false false none false false false false).resizeListener =
      false ∧
    destroy ⟨some 7⟩ ⟨false, false, false, none, false, false, false, false⟩ =
      Except.ok (⟨some 7⟩, ⟨false, false, false, none, false, false, false, false⟩,
        [DestroyAction.cancelFrame 7,
         DestroyAction.removeListener ListenerKind.resize,
         DestroyAction.removeListener ListenerKind.mousemove,
         DestroyAction.removeListener ListenerKind.touchmove,
         DestroyAction.disposeGeometry, DestroyAction.disposeMaterial,
         DestroyAction.disposeRenderer]) ∧
    DestroyAction.removeListener ListenerKind.resize ∈
      [DestroyAction.cancelFrame 7,
       DestroyAction.removeListener ListenerKind.resize,
       DestroyAction.removeListener ListenerKind.mousemove,
       DestroyAction.removeListener ListenerKind.touchmove,
       DestroyAction.disposeGeometry, DestroyAction.disposeMaterial,
       DestroyAction.disposeRenderer] := by
  refine ⟨rfl, rfl, rfl, by decide⟩

/-- C8 (amended): at pool population, for every in-range value of the random
draws the initial position lies on the sampling disk (radius in `[100, 900)`,
direction on the unit circle) and the initial depth `z` lies in `(-1500, 0]`:
`-1500` is excluded, while `z = 0` is attainable. -/
theorem C8_initial_placement_amended (d : Draw) (u : ℚ) (hd : d.Valid) :
    (∃ r, 100 ≤ r ∧ r < 900 ∧ (initStar d u).x = d.c * r ∧
      (initStar d u).y = d.s * r ∧
      (initStar d u).x ^ 2 + (initStar d u).y ^ 2 = r ^ 2) ∧
    -depth < (initStar d u).z ∧ (initStar d u).z ≤ 0 := by
  obtain ⟨hcs, hr0, hr1, h0, h1⟩ := hd
  refine ⟨⟨d.uR * 800 + 100, by nlinarith, by nlinarith, rfl, rfl, ?_⟩,
    ?_, ?_⟩
  · show (d.c * drawRadius d) ^ 2 + (d.s * drawRadius d) ^ 2 = (d.uR * 800 + 100) ^ 2
    unfold drawRadius
    have hx : (d.c * (d.uR * 800 + 100)) ^ 2 + (d.s * (d.uR * 800 + 100)) ^ 2 =
        (d.c ^ 2 + d.s ^ 2) * (d.uR * 800 + 100) ^ 2 := by ring
    rw [hx, hcs, one_mul]
  · show -depth < -(d.uZ * depth)
    unfold depth
    nlinarith
  · show -(d.uZ * depth) ≤ 0
    unfold depth
    nlinarith

theorem C8_initial_placement_amended_witness :
    Draw.Valid ⟨3/5, 4/5, 1/2, 1/2⟩ ∧
    ((∃ r, 100 ≤ r ∧ r < 900 ∧
      (initStar ⟨3/5, 4/5, 1/2, 1/2⟩ 0).x = (Draw.mk (3/5) (4/5) (1/2) (1/2)).c * r ∧
      (initStar ⟨3/5, 4/5, 1/2, 1/2⟩ 0).y = (Draw.mk (3/5) (4/5) (1/2) (1/2)).s * r ∧
      (initStar ⟨3/5, 4/5, 1/2, 1/2⟩ 0).x ^ 2 +
        (initStar ⟨3/5, 4/5, 1/2, 1/2⟩ 0).y ^ 2 = r ^ 2) ∧
    -depth < (initStar ⟨3/5, 4/5, 1/2, 1/2⟩ 0).z ∧
    (initStar ⟨3/5, 4/5, 1/2, 1/2⟩ 0).z ≤ 0) :=
  ⟨by norm_num [Draw.Valid],
    C8_initial_placement_amended ⟨3/5, 4/5, 1/2, 1/2⟩ 0 (by norm_num [Draw.Valid])⟩

/-- C8 (counterexample to the claim as stated): the code computes the initial
depth as `z = -(Math.random() * depth)`, so the random draw `0` — in range for
`Math.random()` — yields `z = 0`, contradicting the claimed half-open range
`[-depth, 0)` in which `z` is never `0`. -/
theorem C8_initial_z_zero_counterexample :
    Draw.Valid ⟨1, 0, 0, 0⟩ ∧ (initStar ⟨1, 0, 0, 0⟩ 0).z = 0 ∧
    ¬ ((initStar ⟨1, 0, 0, 0⟩ 0).z < 0) := by
  refine ⟨by norm_num [Draw.Valid], by norm_num [initStar, depth],
    by norm_num [initStar, depth]⟩

end Starfield
